import Mathlib

/-!
Shallow embedding of the Google AI key checker
(`src/shared/key-management/google-ai/checker.ts`) and the Google-AI-to-OpenAI
streaming transcoder (the unnamed SSE transformer source file), together with
proofs about their behaviour.

JavaScript strings are modelled as Lean `String`, JS numbers (timestamps,
HTTP statuses) as `Int`/`Nat`, JSON runtime values as the inductive `JsVal`,
and `undefined`/optional fields as `Option`.  External collaborators (the SSE
line parser, `JSON.parse`, the HTTP client, the model-family classifier and
the key pool's `update`) are either taken as function parameters or modelled
from the spec, as marked in the corresponding doc comments.
-/

/- ---------------------------------------------------------------------------
JavaScript string primitives used by the two source files.
--------------------------------------------------------------------------- -/

/-- Line terminators, which the regexp metacharacter `.` does not match. -/
def isLineTerm (c : Char) : Bool :=
  c = '\n' || c = '\r' || c.toNat = 0x2028 || c.toNat = 0x2029

/-- Characters removed by `String.prototype.trim` (WhiteSpace plus
LineTerminator). -/
def isJsWhitespace (c : Char) : Bool :=
  c = ' ' || c = '\t' || c = '\n' || c = '\r' || c = '\x0b' || c = '\x0c' ||
  c.toNat = 0x00A0 || c.toNat = 0xFEFF || c.toNat = 0x1680 ||
  (0x2000 ≤ c.toNat && c.toNat ≤ 0x200A) ||
  c.toNat = 0x2028 || c.toNat = 0x2029 || c.toNat = 0x202F || c.toNat = 0x205F || c.toNat = 0x3000

/-- The match of the lazy regexp `^(.*?): ` (as used in
`content.replace(/^(.*?): /, "")`): find the least position `k` reachable
from the start through non-line-terminator characters such that the two
characters at `k` are `':'` and `' '`; on a match return the remainder after
the `": "`. -/
def findColonSpace : List Char → Option (List Char)
  | c1 :: c2 :: rest =>
    if c1 = ':' ∧ c2 = ' ' then some rest
    else if isLineTerm c1 then none
    else findColonSpace (c2 :: rest)
  | _ => none

/-- `content.replace(/^(.*?): /, "")`: remove the shortest leading run of
non-line-terminator characters followed by `": "`, or leave the string
unchanged when the pattern does not match. -/
def stripSpeaker (s : String) : String :=
  match findColonSpace s.data with
  | some rest => ⟨rest⟩
  | none => s

def trimChars (l : List Char) : List Char :=
  ((l.dropWhile isJsWhitespace).reverse.dropWhile isJsWhitespace).reverse

/-- `String.prototype.trim`. -/
def jsTrim (s : String) : String := ⟨trimChars s.data⟩

/-- Whether `pat` occurs at the very start of `l`. -/
def leadsWith : List Char → List Char → Bool
  | [], _ => true
  | _ :: _, [] => false
  | a :: as, b :: bs => a = b && leadsWith as bs

/-- Whether `pat` occurs somewhere inside `l`. -/
def hasSegment (pat : List Char) : List Char → Bool
  | [] => leadsWith pat []
  | c :: rest => leadsWith pat (c :: rest) || hasSegment pat rest

/-- `text.includes(pat)` (also the semantics of matching `text` against a
regexp that is an alternation of metacharacter-free literals). -/
def strIncludes (text pat : String) : Bool := hasSegment pat.data text.data

def toLowerStr (s : String) : String := ⟨s.data.map Char.toLower⟩

def hexDigit (n : Nat) : Char :=
  if n < 10 then Char.ofNat (48 + n) else Char.ofNat (87 + n)

/-- Escaping of a single character inside a JSON string, following
`JSON.stringify` (quote, backslash, the five short escapes, `\u00xx` for the
remaining control characters, everything else verbatim). -/
def jsonEscapeChar (c : Char) : String :=
  if c = '"' then "\\\""
  else if c = '\\' then "\\\\"
  else if c = '\x08' then "\\b"
  else if c = '\t' then "\\t"
  else if c = '\n' then "\\n"
  else if c = '\x0c' then "\\f"
  else if c = '\r' then "\\r"
  else if c.toNat < 0x20 then
    "\\u00" ++ ⟨[hexDigit (c.toNat / 16), hexDigit (c.toNat % 16)]⟩
  else ⟨[c]⟩

/-- A JSON string literal as produced by `JSON.stringify`. -/
def jsonQuote (s : String) : String :=
  "\"" ++ String.join (s.data.map jsonEscapeChar) ++ "\""

def joinComma : List String → String
  | [] => ""
  | [x] => x
  | x :: xs => x ++ "," ++ joinComma xs

/- ---------------------------------------------------------------------------
JSON runtime values (what `JSON.parse` produces and `JSON.stringify`
serialises).  Numbers are restricted to integers, which covers every value
the checker's error payloads carry.
--------------------------------------------------------------------------- -/

inductive JsVal where
  | str (s : String)
  | num (n : Int)
  | bool (b : Bool)
  | null
  | arr (elems : List JsVal)
  | obj (fields : List (String × JsVal))

mutual

/-- `JSON.stringify` on a parsed JSON value: object keys keep their parse
order, no added whitespace. -/
def stringifyJsVal : JsVal → String
  | .str s => jsonQuote s
  | .num n => toString n
  | .bool b => if b then "true" else "false"
  | .null => "null"
  | .arr es => "[" ++ stringifyArr es ++ "]"
  | .obj fs => "\x7b" ++ stringifyObj fs ++ "\x7d"

def stringifyArr : List JsVal → String
  | [] => ""
  | [v] => stringifyJsVal v
  | v :: vs => stringifyJsVal v ++ "," ++ stringifyArr vs

def stringifyObj : List (String × JsVal) → String
  | [] => ""
  | [(k, v)] => jsonQuote k ++ ":" ++ stringifyJsVal v
  | (k, v) :: fs => jsonQuote k ++ ":" ++ stringifyJsVal v ++ "," ++ stringifyObj fs

end

/-- JavaScript truthiness of a JSON value (a missing property, i.e.
`undefined`, is handled by `Option` at the call sites). -/
def jsTruthy : JsVal → Bool
  | .str s => s != ""
  | .num n => n != 0
  | .bool b => b
  | .null => false
  | .arr _ => true
  | .obj _ => true

/-- Property access `v[k]` on a JSON value: `none` plays `undefined`. -/
def objGet : JsVal → String → Option JsVal
  | .obj fs, k => (fs.find? (fun kv => kv.1 == k)).map (fun kv => kv.2)
  | _, _ => none

/- ---------------------------------------------------------------------------
Streaming transcoder (`googleAIToOpenAI` and its helpers `isSafetyStop`,
`asCompletion`).  The external SSE line parser (`parseEvent`, out of scope
per the spec) has already produced the `ServerSentEvent`; `JSON.parse` at the
declared event type is taken as a function parameter `jsonParse`, with `none`
standing for a parse exception.  The `logger` calls are reflected in the
`TranscoderLog` component of the result.
--------------------------------------------------------------------------- -/

/-- A parsed SSE frame, per the spec data model: `\x7beventType?, data\x7d`. -/
structure ServerSentEvent where
  eventType : Option String
  data : String
deriving DecidableEq

structure SafetyRating where
  category : String
  probability : String
deriving DecidableEq

structure GPart where
  text : String
deriving DecidableEq

structure GContent where
  parts : Option (List GPart)
  role : String
deriving DecidableEq

/-- One candidate of a `GoogleAIStreamEvent`; field types follow the source
type declaration (`content?`, `finishReason?`, `tokenCount?` optional).
`finishReason` is kept as a plain string because the code only compares it
against string literals. -/
structure Candidate where
  content : Option GContent
  finishReason : Option String
  index : Nat
  tokenCount : Option Nat
  safetyRatings : List SafetyRating
deriving DecidableEq

structure GoogleAIStreamEvent where
  candidates : List Candidate
deriving DecidableEq

/-- Placeholder used by `List.headD`; `asCompletion` guarantees at least one
candidate, so this value is never observable in an emitted chunk. -/
def defaultCandidate : Candidate := ⟨none, none, 0, none, []⟩

/-- `completionEvent.candidates[0]`. -/
def firstCandidate (ev : GoogleAIStreamEvent) : Candidate :=
  ev.candidates.headD defaultCandidate

/-- Lines 37-38 of the transcoder: `parts = candidates[0].content?.parts || []`
followed by `parts[0]?.text ?? ""`. -/
def extractContent (ev : GoogleAIStreamEvent) : String :=
  ((((firstCandidate ev).content.bind GContent.parts).getD []).head?.map GPart.text).getD ""

/-- `isSafetyStop`: finish reason SAFETY or OTHER, and
`content?.parts?.length === 0` — note the optional chaining: when `content`
or `parts` is absent the comparison is `undefined === 0`, i.e. false. -/
def isSafetyStop (ev : GoogleAIStreamEvent) : Bool :=
  (((firstCandidate ev).finishReason.getD "") == "SAFETY" ||
   ((firstCandidate ev).finishReason.getD "") == "OTHER") &&
  (match (firstCandidate ev).content with
   | some ct =>
     match ct.parts with
     | some ps => ps.length == 0
     | none => false
   | none => false)

def safetyWarnHead : String := "[Proxy Warning] Gemini safety filter triggered: "

/-- `JSON.stringify` of one safety rating record (declared shape
`\x7bcategory, probability\x7d`, keys in declaration order). -/
def stringifyRating (r : SafetyRating) : String :=
  "\x7b\"category\":" ++ jsonQuote r.category ++ ",\"probability\":" ++ jsonQuote r.probability ++ "\x7d"

/-- `JSON.stringify(candidates[0].safetyRatings)`. -/
def jsonStringifyRatings (rs : List SafetyRating) : String :=
  "[" ++ joinComma (rs.map stringifyRating) ++ "]"

/-- The synthesized warning text of the safety-block override (line 41). -/
def safetyOverrideText (ev : GoogleAIStreamEvent) : String :=
  safetyWarnHead ++ jsonStringifyRatings (firstCandidate ev).safetyRatings

/-- `asCompletion`: parse the payload and require at least one candidate;
`none` covers both the JSON parse exception and the thrown
"Missing required fields" (in the source both land in the `catch`, which
logs a warning and returns null — the warning is accounted for at the call
site in `googleAIToOpenAI`). -/
def asCompletion (jsonParse : String → Option GoogleAIStreamEvent)
    (event : ServerSentEvent) : Option GoogleAIStreamEvent :=
  match jsonParse event.data with
  | some parsed => if 0 < parsed.candidates.length then some parsed else none
  | none => none

structure ChunkChoice where
  index : Nat
  deltaContent : String
  finishReason : Option String
deriving DecidableEq

structure ChatChunk where
  id : String
  object : String
  created : Int
  model : String
  choices : List ChunkChoice
deriving DecidableEq

structure TransformerResult where
  position : Int
  event : Option ChatChunk
deriving DecidableEq

inductive TranscoderLog where
  | silent
  | warnInvalid
deriving DecidableEq

def skipResult : TransformerResult := ⟨-1, none⟩

/-- The transcoder body of `googleAIToOpenAI`, from the parsed SSE frame on
(`now` is `Date.now()`, `index` the zero-based frame index).  The second
component records whether the invalid-event warning was logged. -/
def googleAIToOpenAI (jsonParse : String → Option GoogleAIStreamEvent) (now : Int)
    (rawEvent : ServerSentEvent) (index : Nat) (fallbackId fallbackModel : String) :
    TransformerResult × TranscoderLog :=
  if rawEvent.data = "" ∨ rawEvent.data = "[DONE]" then (skipResult, .silent)
  else
    match asCompletion jsonParse rawEvent with
    | none => (skipResult, .warnInvalid)
    | some completionEvent =>
      let base :=
        if isSafetyStop completionEvent then safetyOverrideText completionEvent
        else extractContent completionEvent
      let content := if index = 0 then jsTrim (stripSpeaker base) else base
      (⟨-1, some ⟨"goo-" ++ fallbackId, "chat.completion.chunk", now, fallbackModel,
        [⟨0, content, (firstCandidate completionEvent).finishReason⟩]⟩⟩, .silent)

/-- `choices[0].delta.content` of an emitted chunk. -/
def chunkContent (c : ChatChunk) : String :=
  ((c.choices.head?).map ChunkChoice.deltaContent).getD ""

/- ---------------------------------------------------------------------------
Key checker (`GoogleAIKeyChecker` in `checker.ts`).  The key record and the
patch/update mechanism follow the spec data model; HTTP outcomes are inputs.
--------------------------------------------------------------------------- -/

/-- `KEY_CHECK_PERIOD` (checker.ts line 10): 6 hours in milliseconds (the
comment in the source says "3 hours", the value is 6). -/
def KEY_CHECK_PERIOD : Int := 6 * 60 * 60 * 1000

/-- The Google AI key record (spec section 3): identity plus the mutable
fields the checker touches. -/
structure GoogleAIKey where
  hash : String
  key : String
  isDisabled : Bool
  isRevoked : Bool
  lastChecked : Int
  modelFamilies : List String
  modelIds : List String
deriving DecidableEq

/-- A partial key record: the argument of `update(hash, patch)`; `none` means
the field is absent from the patch. -/
structure KeyPatch where
  isDisabled : Option Bool
  isRevoked : Option Bool
  lastChecked : Option Int
  modelFamilies : Option (List String)
  modelIds : Option (List String)
deriving DecidableEq

/-- Modelled from the spec: the pool's `update(id, patch)` entry point
(`GoogleAIKeyProvider.update`, referenced by `checker.ts` via
`typeof GoogleAIKeyProvider.prototype.update` but defined in `provider.ts`,
which is not part of the sources).  Per spec sections 3 and 6 it applies the
given subset of mutable fields atomically to the pooled record; per sections
4.1 and 4.2 a fully successful check leaves `lastChecked` refreshed to now
even though the success patch in `testKeyOrFail` carries no explicit
`lastChecked`, while the rescheduling patches of `handleError` carry an
explicit (past) `lastChecked` that is honoured as given.  Hence the update
defaults `lastChecked` to the current time exactly when the patch omits it. -/
def applyPatch (now : Int) (k : GoogleAIKey) (p : KeyPatch) : GoogleAIKey :=
  ⟨k.hash, k.key,
   p.isDisabled.getD k.isDisabled,
   p.isRevoked.getD k.isRevoked,
   p.lastChecked.getD now,
   p.modelFamilies.getD k.modelFamilies,
   p.modelIds.getD k.modelIds⟩

/-- Spec section 3: a key is due when `now >= lastChecked + recheckPeriod`;
this is the next due time of a key. -/
def nextDueTime (k : GoogleAIKey) : Int := k.lastChecked + KEY_CHECK_PERIOD

/-- The response attached to an axios error: HTTP status and parsed JSON
body. -/
structure AxiosResponseData where
  status : Nat
  data : JsVal

/-- An `AxiosError`: message plus optional response (absent on a network
error). -/
structure AxiosErr where
  message : String
  response : Option AxiosResponseData

/-- `errorIsGoogleAIError` (checker.ts lines 171-176): truthiness of
`data?.error?.code || data?.error?.status`. -/
def errorIsGoogleAIError (e : AxiosErr) : Bool :=
  match e.response with
  | none => false
  | some r =>
    match objGet r.data "error" with
    | none => false
    | some errVal =>
      jsTruthy ((objGet errVal "code").getD JsVal.null) ||
      jsTruthy ((objGet errVal "status").getD JsVal.null)

inductive LogLevel where
  | warn
  | error
deriving DecidableEq

/-- One `handleAxiosError` outcome: the log line (key hash, level, message)
and the patch passed to `updateKey` — every branch performs exactly one log
and one update. -/
structure CheckerResult where
  logKey : String
  logLevel : LogLevel
  logMsg : String
  patch : KeyPatch
deriving DecidableEq

/-- The strings produced by `keyDeadMsgs.join("|")` for the 400 branch.
`Array.prototype.join` stringifies each `RegExp` element to the form
`/source/flags`, and `String.prototype.match` compiles the joined string with
`new RegExp(...)` — so the pattern is an alternation of the four
metacharacter-free literals below, slashes and trailing `i` included, with no
case-insensitive flag.  Matching such an alternation is a plain substring
test for one of the literals. -/
def deadKey400JoinedLiterals : List String :=
  ["/please enable billing/i", "/API key not valid/i", "/API key expired/i",
   "/pass a valid API/i"]

/-- The strings produced by `keyDeadMsgs.join("|")` for the 429 branch (same
mechanism as `deadKey400JoinedLiterals`). -/
def deadKey429JoinedLiterals : List String :=
  ["/GenerateContentRequestsPerMinutePerProjectPerRegion/i",
   "/\"quota_limit_value\":\"0\"/i"]

/-- `text.match(lits.join("|"))` truthiness. -/
def textMatchesJoined (lits : List String) (text : String) : Bool :=
  lits.any (fun l => strIncludes text l)

def msgDead400 : String := "Key check returned a non-transient 400 error. Disabling key."
def msg401403 : String := "Key check returned Forbidden/Unauthorized error. Disabling key."
def msgDead429 : String := "Key check returned a non-transient 429 error. Disabling key."
def msgRateLimited : String := "Key is rate limited. Rechecking key in 1 minute."
def msgUnexpected : String :=
  "Encountered unexpected error status while checking key. This may indicate a change in the API; please report this."
def msgNetwork : String :=
  "Network error while checking key; trying this key again in a minute."

def disablePatch : KeyPatch := ⟨some true, some true, none, none, none⟩

def disableResult (key : GoogleAIKey) (msg : String) : CheckerResult :=
  ⟨key.hash, .warn, msg, disablePatch⟩

/-- 429 fallthrough: `next = Date.now() - (KEY_CHECK_PERIOD - 60 * 1000)`. -/
def rateLimitedResult (key : GoogleAIKey) (now : Int) : CheckerResult :=
  ⟨key.hash, .warn, msgRateLimited,
   ⟨none, none, some (now - (KEY_CHECK_PERIOD - 60 * 1000)), none, none⟩⟩

/-- Unexpected-status branch (checker.ts lines 155-159):
`updateKey(hash, \x7b lastChecked: Date.now() \x7d)`. -/
def unexpectedStatusResult (key : GoogleAIKey) (now : Int) : CheckerResult :=
  ⟨key.hash, .error, msgUnexpected, ⟨none, none, some now, none, none⟩⟩

/-- Network-error branch (checker.ts lines 162-168): the constant named
`oneMinute` holds `10 * 1000`, i.e. ten seconds — the observed behaviour is
kept, as the spec requires. -/
def networkErrorResult (key : GoogleAIKey) (now : Int) : CheckerResult :=
  ⟨key.hash, .error, msgNetwork,
   ⟨none, none, some (now - (KEY_CHECK_PERIOD - 10 * 1000)), none, none⟩⟩

/-- `handleAxiosError` (checker.ts lines 97-169).  The classified branches
run only under `error.response && errorIsGoogleAIError(error)`; a 400 whose
text does not match the dead-key pattern falls through the `switch` (the
`break`) into the unexpected-status branch. -/
def handleAxiosError (key : GoogleAIKey) (e : AxiosErr) (now : Int) : CheckerResult :=
  match e.response with
  | some resp =>
    if errorIsGoogleAIError e then
      let text := stringifyJsVal ((objGet resp.data "error").getD JsVal.null)
      if resp.status = 400 ∧ textMatchesJoined deadKey400JoinedLiterals text = true then
        disableResult key msgDead400
      else if resp.status = 401 ∨ resp.status = 403 then
        disableResult key msg401403
      else if resp.status = 429 ∧ textMatchesJoined deadKey429JoinedLiterals text = true then
        disableResult key msgDead429
      else if resp.status = 429 then
        rateLimitedResult key now
      else
        unexpectedStatusResult key now
    else networkErrorResult key now
  | none => networkErrorResult key now

/-- This predicate follows the spec's words, not the source: "HTTP 400 and
error text matches a known dead-key pattern (billing disabled,
invalid/expired API key, invalid key format)", with the case-insensitive
regexps the source lists.  Used to witness the divergence between intended
and actual matching. -/
def specDeadKeyText400 (text : String) : Bool :=
  ["please enable billing", "api key not valid", "api key expired",
   "pass a valid api"].any (fun p => strIncludes (toLowerStr text) p)

/-- This predicate follows the spec's words, not the source: "HTTP 429 and
error text matches a known zero-quota pattern (quota value is zero, or a
specific per-minute-per-project quota name)". -/
def specZeroQuotaText429 (text : String) : Bool :=
  ["generatecontentrequestsperminuteperprojectperregion",
   "\"quota_limit_value\":\"0\""].any (fun p => strIncludes (toLowerStr text) p)

/-- JS `Set.prototype.add` over a list: keep first occurrences, in insertion
order. -/
def insertIfAbsent (l : List String) (x : String) : List String :=
  if l.contains x then l else l ++ [x]

/-- `Array.from(new Set(...))` of a list, preserving insertion order. -/
def jsSetOfList (xs : List String) : List String := xs.foldl insertIfAbsent []

/-- The patch issued inside `getProvisionedModels` (checker.ts lines 74-78):
model families (each listed model name classified by the external
`getGoogleAIModelFamily`, here the parameter `classify`) and raw model ids,
both deduplicated in insertion order. -/
def provisionedModelsPatch (classify : String → String) (names : List String) : KeyPatch :=
  ⟨none, none, none, some (jsSetOfList (names.map classify)), some (jsSetOfList names)⟩

/-- Observable steps of one `testKeyOrFail` run, in program order. -/
inductive CheckEvent where
  | update (patch : KeyPatch)
  | smokeTest
  | logInfo (hash : String) (families : List String) (idCount : Nat)
  | failure (e : AxiosErr)

/-- `testKeyOrFail` (checker.ts lines 47-57) with the two awaited HTTP probes
represented by their outcomes: the model-list call (yielding the listed model
names) and the `generateContent` smoke test.  A `failure` event is the error
propagating out of `testKeyOrFail` (to be routed to `handleAxiosError` by the
scheduler).  The final `logInfo` reads `key.modelFamilies` and
`key.modelIds.length` after the pool's in-place update, hence it carries the
freshly discovered sets. -/
def testKeyOrFail (classify : String → String) (key : GoogleAIKey)
    (listModelsOutcome : Except AxiosErr (List String))
    (genContentOutcome : Except AxiosErr Unit) : List CheckEvent :=
  match listModelsOutcome with
  | .error e => [.failure e]
  | .ok names =>
    .update (provisionedModelsPatch classify names) :: .smokeTest ::
      (match genContentOutcome with
       | .error e => [.failure e]
       | .ok _ =>
         [.update ⟨none, none, none, some (jsSetOfList (names.map classify)), none⟩,
          .logInfo key.hash (jsSetOfList (names.map classify)) (jsSetOfList names).length])

/-- Fold the `update` events of a trace into the key record. -/
def runEvents (now : Int) (k : GoogleAIKey) (evs : List CheckEvent) : GoogleAIKey :=
  evs.foldl (fun acc ev => match ev with | .update p => applyPatch now acc p | _ => acc) k

/-- The `validateStatus` config of the smoke test (checker.ts line 93):
`(status) => status === 200`. -/
def generateContentValidateStatus (status : Nat) : Bool := status == 200

/-- Outcome of one HTTP call: a response with some status and JSON body, or
no response at all. -/
inductive HttpOutcome where
  | response (status : Nat) (body : JsVal)
  | network (message : String)

/-- Modelled from the spec: the external HTTP client (spec section 2)
"surfaces structured errors distinguishing response received with error
status from no response" — axios resolves when the configured
`validateStatus` accepts the status, rejects with an `AxiosError` carrying
the response otherwise, and rejects with a response-less error on a network
failure. -/
def axiosRequest (validate : Nat → Bool) (outcome : HttpOutcome) : Except AxiosErr Unit :=
  match outcome with
  | .response s body =>
    if validate s then .ok ()
    else .error ⟨"Request failed with status code " ++ toString s, some ⟨s, body⟩⟩
  | .network msg => .error ⟨msg, none⟩

/-- `testGenerateContent` (checker.ts lines 83-95), as a function of the HTTP
outcome of the POST. -/
def testGenerateContent (outcome : HttpOutcome) : Except AxiosErr Unit :=
  axiosRequest generateContentValidateStatus outcome

/- ---------------------------------------------------------------------------
Concrete sample values used by witnesses and counterexamples.
--------------------------------------------------------------------------- -/

def sampleKey : GoogleAIKey := ⟨"key-hash-1", "secret", false, false, 0, [], []⟩

/-- A 500 response whose body carries no Google AI error envelope. -/
def e500NoEnvelope : AxiosErr :=
  ⟨"Request failed with status code 500", some ⟨500, JsVal.obj [("detail", JsVal.str "Internal")]⟩⟩

/-- The error envelope of a real zero-quota 429: its serialized text contains
`"quota_limit_value":"0"`. -/
def err429ZeroQuota : JsVal :=
  JsVal.obj [("code", JsVal.num 429),
             ("message", JsVal.str "Resource has been exhausted (e.g. check quota)."),
             ("status", JsVal.str "RESOURCE_EXHAUSTED"),
             ("details", JsVal.arr [JsVal.obj [("quota_limit_value", JsVal.str "0")]])]

def e429ZeroQuota : AxiosErr :=
  ⟨"Request failed with status code 429", some ⟨429, JsVal.obj [("error", err429ZeroQuota)]⟩⟩

/-- The error envelope of an invalid-key 400 ("API key not valid"). -/
def err400DeadKey : JsVal :=
  JsVal.obj [("code", JsVal.num 400),
             ("message", JsVal.str "API key not valid. Please pass a valid API key."),
             ("status", JsVal.str "INVALID_ARGUMENT"),
             ("details", JsVal.arr [])]

def e400DeadKey : AxiosErr :=
  ⟨"Request failed with status code 400", some ⟨400, JsVal.obj [("error", err400DeadKey)]⟩⟩

/-- A mid-stream event whose only part reads "Assistant: Hello there". -/
def evAssistant : GoogleAIStreamEvent :=
  ⟨[⟨some ⟨some [⟨"Assistant: Hello there"⟩], "model"⟩, none, 0, none, []⟩]⟩

def jpAssistant : String → Option GoogleAIStreamEvent := fun _ => some evAssistant

/-- A frame payload that is neither empty nor the termination sentinel. -/
def sseX : ServerSentEvent := ⟨none, "x"⟩

/-- A SAFETY-stopped candidate with its `content` field entirely absent. -/
def evSafetyNoContent : GoogleAIStreamEvent :=
  ⟨[⟨none, some "SAFETY", 0, none, [⟨"HARM_CATEGORY_DANGEROUS_CONTENT", "HIGH"⟩]⟩]⟩

def jpSafetyNoContent : String → Option GoogleAIStreamEvent := fun _ => some evSafetyNoContent

/-- A SAFETY-stopped candidate whose `content.parts` is present and empty. -/
def evSafetyEmptyParts : GoogleAIStreamEvent :=
  ⟨[⟨some ⟨some [], "model"⟩, some "SAFETY", 0, none, [⟨"HARM_CATEGORY_HARASSMENT", "NEGLIGIBLE"⟩]⟩]⟩

def jpSafetyEmptyParts : String → Option GoogleAIStreamEvent := fun _ => some evSafetyEmptyParts

/-- An OTHER-stopped candidate with empty parts, for the first-frame strip. -/
def evSafetyFirst : GoogleAIStreamEvent :=
  ⟨[⟨some ⟨some [], "model"⟩, some "OTHER", 0, none, [⟨"HARM_CATEGORY_SEXUALLY_EXPLICIT", "LOW"⟩]⟩]⟩

def jpSafetyFirst : String → Option GoogleAIStreamEvent := fun _ => some evSafetyFirst

/-- A parse that always fails, used for malformed frames. -/
def jpNone : String → Option GoogleAIStreamEvent := fun _ => none

/- ---------------------------------------------------------------------------
Helper lemmas.
--------------------------------------------------------------------------- -/

theorem strData_append (a b : String) : (a ++ b).data = a.data ++ b.data := by
  cases a
  cases b
  rfl

theorem strMk_data (s : String) : String.mk s.data = s := by
  cases s
  rfl

/-- The warning head contains exactly one `": "`, at its end, and no line
terminator, so the lazy strip consumes exactly the head. -/
theorem findColonSpace_after_head (l : List Char) :
    findColonSpace (safetyWarnHead.data ++ l) = some l := rfl

theorem stripSpeaker_head (s : String) :
    stripSpeaker (safetyWarnHead ++ s) = s := by
  have h1 : (safetyWarnHead ++ s).data = safetyWarnHead.data ++ s.data :=
    strData_append _ _
  simp only [stripSpeaker, h1, findColonSpace_after_head]

theorem trimChars_bracketed (mid : List Char) :
    trimChars ('[' :: (mid ++ [']'])) = '[' :: (mid ++ [']']) := by
  have h1 : List.dropWhile isJsWhitespace ('[' :: (mid ++ [']'])) = '[' :: (mid ++ [']']) := rfl
  have h2 : ('[' :: (mid ++ [']'])).reverse = ']' :: (mid.reverse ++ ['[']) := by
    simp [List.reverse_cons, List.reverse_append]
  have h3 : List.dropWhile isJsWhitespace (']' :: (mid.reverse ++ ['['])) =
      ']' :: (mid.reverse ++ ['[']) := rfl
  unfold trimChars
  rw [h1, h2, h3]
  simp [List.reverse_cons, List.reverse_append, List.reverse_reverse]

theorem ratingsData (rs : List SafetyRating) :
    (jsonStringifyRatings rs).data = '[' :: ((joinComma (rs.map stringifyRating)).data ++ [']']) := by
  unfold jsonStringifyRatings
  rw [strData_append, strData_append]
  rfl

theorem jsTrim_ratings (rs : List SafetyRating) :
    jsTrim (jsonStringifyRatings rs) = jsonStringifyRatings rs := by
  unfold jsTrim
  rw [ratingsData, trimChars_bracketed, ← ratingsData, strMk_data]

/-- At frame index 0 the speaker-prefix strip turns the synthesized safety
warning into exactly the serialized safety ratings. -/
theorem stripTrim_safety (ev : GoogleAIStreamEvent) :
    jsTrim (stripSpeaker (safetyOverrideText ev)) =
      jsonStringifyRatings (firstCandidate ev).safetyRatings := by
  unfold safetyOverrideText
  rw [stripSpeaker_head, jsTrim_ratings]

theorem safetyOverrideText_ne (ev : GoogleAIStreamEvent) : safetyOverrideText ev ≠ "" := by
  unfold safetyOverrideText
  intro h
  have h2 := congrArg String.data h
  rw [strData_append] at h2
  simp at h2
  exact absurd h2.1 (by decide)

/-- When all guards pass, the transcoder emits exactly one chunk built from
the first candidate. -/
theorem transcoderEmits (jp : String → Option GoogleAIStreamEvent) (now : Int)
    (sse : ServerSentEvent) (index : Nat) (fid fm : String) (ev : GoogleAIStreamEvent)
    (hp : jp sse.data = some ev) (h1 : sse.data ≠ "") (h2 : sse.data ≠ "[DONE]")
    (hc : ev.candidates ≠ []) :
    googleAIToOpenAI jp now sse index fid fm =
      (⟨-1, some ⟨"goo-" ++ fid, "chat.completion.chunk", now, fm,
        [⟨0,
          (if index = 0 then
            jsTrim (stripSpeaker
              (if isSafetyStop ev then safetyOverrideText ev else extractContent ev))
          else
            (if isSafetyStop ev then safetyOverrideText ev else extractContent ev)),
          (firstCandidate ev).finishReason⟩]⟩⟩, .silent) := by
  have hlen : 0 < ev.candidates.length := List.length_pos.mpr hc
  unfold googleAIToOpenAI asCompletion
  rw [if_neg (not_or.mpr ⟨h1, h2⟩), hp]
  simp [hlen]

theorem extractContent_of_nil (ev : GoogleAIStreamEvent) (h : ev.candidates = []) :
    extractContent ev = "" := by
  unfold extractContent firstCandidate
  rw [h]
  rfl

theorem candidates_ne_nil_of_extract (ev : GoogleAIStreamEvent)
    (h : extractContent ev ≠ "") : ev.candidates ≠ [] := by
  intro hnil
  exact h (extractContent_of_nil ev hnil)

theorem isSafetyStop_false_of_extract (ev : GoogleAIStreamEvent)
    (h : extractContent ev ≠ "") : isSafetyStop ev = false := by
  unfold isSafetyStop
  cases hct : (firstCandidate ev).content with
  | none => simp
  | some ct =>
    cases hps : ct.parts with
    | none => simp [hps]
    | some ps =>
      cases ps with
      | nil =>
        exfalso
        apply h
        unfold extractContent
        rw [hct]
        simp [Option.bind, hps]
      | cons p ps' => simp [hps]

/- ---------------------------------------------------------------------------
Claim theorems.
--------------------------------------------------------------------------- -/

/-- Claim C1, counterexample: a failure that does carry an HTTP response (a
500 whose body has no Google AI error envelope) is nevertheless handled by
the network-error branch — the key stays enabled and the next due time is 10
seconds out — refuting "handleError takes the network-error action exactly
when the failure carries no HTTP response". -/
theorem c1_response_without_envelope_takes_network_branch :
    e500NoEnvelope.response.isSome = true ∧
    handleAxiosError sampleKey e500NoEnvelope 0 = networkErrorResult sampleKey 0 ∧
    (applyPatch 0 sampleKey (handleAxiosError sampleKey e500NoEnvelope 0).patch).isDisabled = false ∧
    nextDueTime (applyPatch 0 sampleKey (handleAxiosError sampleKey e500NoEnvelope 0).patch) =
      10 * 1000 := by
  refine ⟨rfl, rfl, rfl, ?_⟩
  decide

/-- Claim C1, amended: `handleError` takes the network-error action (key
stays enabled, next due time 10 seconds from now) exactly when the failure
carries no HTTP response or the response body lacks the Google AI error
envelope (truthy `error.code` or `error.status`); failures whose response
carries the envelope are classified by HTTP status. -/
theorem c1_network_action_iff_no_envelope (k : GoogleAIKey) (e : AxiosErr) (now : Int) :
    (handleAxiosError k e now = networkErrorResult k now ↔
      (e.response = none ∨ errorIsGoogleAIError e = false)) ∧
    (applyPatch now k (networkErrorResult k now).patch).isDisabled = k.isDisabled ∧
    (applyPatch now k (networkErrorResult k now).patch).isRevoked = k.isRevoked ∧
    nextDueTime (applyPatch now k (networkErrorResult k now).patch) = now + 10 * 1000 := by
  refine ⟨?_, rfl, rfl, ?_⟩
  · obtain ⟨msg, resp⟩ := e
    cases resp with
    | none => simp [handleAxiosError]
    | some r =>
      by_cases henv : errorIsGoogleAIError ⟨msg, some r⟩ = true
      · constructor
        · intro heq
          exfalso
          simp only [handleAxiosError] at heq
          rw [if_pos henv] at heq
          split_ifs at heq with ha hb hc hd
          · have hm := congrArg CheckerResult.logMsg heq
            simp only [disableResult, networkErrorResult] at hm
            exact absurd hm (by decide)
          · have hm := congrArg CheckerResult.logMsg heq
            simp only [disableResult, networkErrorResult] at hm
            exact absurd hm (by decide)
          · have hm := congrArg CheckerResult.logMsg heq
            simp only [disableResult, networkErrorResult] at hm
            exact absurd hm (by decide)
          · have hm := congrArg CheckerResult.logMsg heq
            simp only [rateLimitedResult, networkErrorResult] at hm
            exact absurd hm (by decide)
          · have hm := congrArg CheckerResult.logMsg heq
            simp only [unexpectedStatusResult, networkErrorResult] at hm
            exact absurd hm (by decide)
        · intro hor
          simp [henv] at hor
      · have henv' : errorIsGoogleAIError ⟨msg, some r⟩ = false :=
          Bool.not_eq_true _ ▸ Bool.of_not_eq_true henv
        simp [handleAxiosError, henv']
  · simp [nextDueTime, applyPatch, networkErrorResult, KEY_CHECK_PERIOD]
    omega

/-- Claim C3: the code joins the zero-quota `RegExp` objects with
`join("|")` and hands the resulting string to `String.prototype.match`, so
the compiled pattern is an alternation of the literals `/.../i` — slashes
and flag included.  A real 429 whose serialized error text contains the
claimed marker `"quota_limit_value":"0"` therefore does not match: the key
is not disabled or revoked but rescheduled one minute out, contradicting the
claim (and spec property 9), whose intent the regex literals in the source
plainly state. -/
theorem c3_zero_quota_429_not_disabled :
    specZeroQuotaText429 (stringifyJsVal err429ZeroQuota) = true ∧
    strIncludes (stringifyJsVal err429ZeroQuota) "\"quota_limit_value\":\"0\"" = true ∧
    textMatchesJoined deadKey429JoinedLiterals (stringifyJsVal err429ZeroQuota) = false ∧
    handleAxiosError sampleKey e429ZeroQuota 0 = rateLimitedResult sampleKey 0 ∧
    (handleAxiosError sampleKey e429ZeroQuota 0).patch.isDisabled = none ∧
    (applyPatch 0 sampleKey (handleAxiosError sampleKey e429ZeroQuota 0).patch).isDisabled = false ∧
    (applyPatch 0 sampleKey (handleAxiosError sampleKey e429ZeroQuota 0).patch).isRevoked = false ∧
    nextDueTime (applyPatch 0 sampleKey (handleAxiosError sampleKey e429ZeroQuota 0).patch) =
      60 * 1000 := by
  refine ⟨by decide, by decide, by decide, rfl, rfl, rfl, rfl, by decide⟩

/-- Claim C4: same `join("|")` slip as in the 429 branch — the dead-key
regexps of the 400 branch are reduced to literal `/.../i` substring tests
that real error text never satisfies.  A 400 response reading "API key not
valid. Please pass a valid API key." (squarely a dead-key pattern in the
claim's and the regex literals' sense) is therefore not disabled or revoked;
it falls through to the unexpected-status branch and is rescheduled at the
normal full period. -/
theorem c4_dead_key_400_not_disabled :
    specDeadKeyText400 (stringifyJsVal err400DeadKey) = true ∧
    textMatchesJoined deadKey400JoinedLiterals (stringifyJsVal err400DeadKey) = false ∧
    handleAxiosError sampleKey e400DeadKey 0 = unexpectedStatusResult sampleKey 0 ∧
    (handleAxiosError sampleKey e400DeadKey 0).patch.isDisabled = none ∧
    (applyPatch 0 sampleKey (handleAxiosError sampleKey e400DeadKey 0).patch).isDisabled = false ∧
    (applyPatch 0 sampleKey (handleAxiosError sampleKey e400DeadKey 0).patch).isRevoked = false ∧
    nextDueTime (applyPatch 0 sampleKey (handleAxiosError sampleKey e400DeadKey 0).patch) =
      0 + KEY_CHECK_PERIOD := by
  refine ⟨by decide, by decide, rfl, rfl, rfl, rfl, by decide⟩

/-- Claim C2: on full success of `testKeyOrFail` (model listing and smoke
test both succeed) the final state has `modelFamilies` equal to the
discovered family set and `lastChecked` equal to the current time (the
success patch names only `modelFamilies`; the pool's update refreshes
`lastChecked`, see `applyPatch`), and the final step is the log line carrying
the key hash, the family list and the id count. -/
theorem c2_success_patches_families_and_lastChecked (classify : String → String)
    (key : GoogleAIKey) (names : List String) (now : Int) :
    (runEvents now key (testKeyOrFail classify key (Except.ok names) (Except.ok ()))).modelFamilies =
      jsSetOfList (names.map classify) ∧
    (runEvents now key (testKeyOrFail classify key (Except.ok names) (Except.ok ()))).lastChecked =
      now ∧
    (testKeyOrFail classify key (Except.ok names) (Except.ok ())).getLast? =
      some (CheckEvent.logInfo key.hash (jsSetOfList (names.map classify))
        (jsSetOfList names).length) := by
  refine ⟨rfl, rfl, rfl⟩

/-- Claim C8: with a successful capability discovery, the trace of
`testKeyOrFail` begins with the capability patch (families and raw ids) and
only then issues the smoke test; hence whatever outcome the smoke test has —
in particular any failure — the capability data has already been applied to
the key record. -/
theorem c8_capability_patch_before_smoke_test (classify : String → String)
    (key : GoogleAIKey) (names : List String) (e : AxiosErr) (now : Int) :
    (testKeyOrFail classify key (Except.ok names) (Except.error e)).take 2 =
      [CheckEvent.update (provisionedModelsPatch classify names), CheckEvent.smokeTest] ∧
    (provisionedModelsPatch classify names).modelFamilies =
      some (jsSetOfList (names.map classify)) ∧
    (provisionedModelsPatch classify names).modelIds = some (jsSetOfList names) ∧
    (runEvents now key (testKeyOrFail classify key (Except.ok names) (Except.error e))).modelFamilies =
      jsSetOfList (names.map classify) ∧
    (runEvents now key (testKeyOrFail classify key (Except.ok names) (Except.error e))).modelIds =
      jsSetOfList names ∧
    ∀ gen : Except AxiosErr Unit,
      (testKeyOrFail classify key (Except.ok names) gen).take 2 =
        [CheckEvent.update (provisionedModelsPatch classify names), CheckEvent.smokeTest] := by
  refine ⟨rfl, rfl, rfl, rfl, rfl, fun gen => ?_⟩
  cases gen <;> rfl

/-- Claim C9: the smoke test passes exactly when the HTTP response status is
200; any other status makes the call raise an `AxiosError` carrying the
response (which the scheduler routes to `handleAxiosError`), and a network
failure raises a response-less error. -/
theorem c9_smoke_test_requires_exactly_200 (s : Nat) (body : JsVal) :
    (testGenerateContent (HttpOutcome.response s body) = Except.ok () ↔ s = 200) ∧
    (s ≠ 200 → testGenerateContent (HttpOutcome.response s body) =
      Except.error ⟨"Request failed with status code " ++ toString s, some ⟨s, body⟩⟩) ∧
    (∀ msg : String, testGenerateContent (HttpOutcome.network msg) =
      Except.error ⟨msg, none⟩) := by
  refine ⟨?_, ?_, fun msg => rfl⟩
  · unfold testGenerateContent axiosRequest generateContentValidateStatus
    by_cases h : s = 200
    · subst h
      simp
    · simp [h]
  · intro h
    unfold testGenerateContent axiosRequest generateContentValidateStatus
    simp [h]

/-- Claim C9 witness: a 200 response passes, a 403 response raises the
structured error. -/
theorem c9_witness :
    testGenerateContent (HttpOutcome.response 200 JsVal.null) = Except.ok () ∧
    testGenerateContent (HttpOutcome.response 403 JsVal.null) =
      Except.error ⟨"Request failed with status code " ++ toString 403,
        some ⟨403, JsVal.null⟩⟩ :=
  ⟨((c9_smoke_test_requires_exactly_200 200 JsVal.null).1).mpr rfl,
   (c9_smoke_test_requires_exactly_200 403 JsVal.null).2.1 (by decide)⟩

/-- Claim C5: the speaker-prefix strip applies only at frame index 0 — for
any emitted frame whose extracted text is "Assistant: Hello there", the
delta content is "Hello there" at index 0 and the unchanged
"Assistant: Hello there" at any other index. -/
theorem c5_speaker_strip_only_first_frame (jp : String → Option GoogleAIStreamEvent)
    (now : Int) (sse : ServerSentEvent) (index : Nat) (fid fm : String)
    (ev : GoogleAIStreamEvent)
    (hp : jp sse.data = some ev) (h1 : sse.data ≠ "") (h2 : sse.data ≠ "[DONE]")
    (htext : extractContent ev = "Assistant: Hello there") :
    (googleAIToOpenAI jp now sse index fid fm).1.event.map chunkContent =
      some (if index = 0 then "Hello there" else "Assistant: Hello there") := by
  have hne : extractContent ev ≠ "" := by
    rw [htext]
    decide
  have hc := candidates_ne_nil_of_extract ev hne
  have hss := isSafetyStop_false_of_extract ev hne
  have hstr : jsTrim (stripSpeaker "Assistant: Hello there") = "Hello there" := by decide
  rw [transcoderEmits jp now sse index fid fm ev hp h1 h2 hc]
  by_cases hi : index = 0
  · simp [chunkContent, hi, hss, htext, hstr]
  · simp [chunkContent, hi, hss, htext]

/-- Claim C5 witness: the concrete "Assistant: Hello there" event at frame
indices 0 and 1. -/
theorem c5_witness :
    (googleAIToOpenAI jpAssistant 0 sseX 0 "a" "b").1.event.map chunkContent =
      some "Hello there" ∧
    (googleAIToOpenAI jpAssistant 0 sseX 1 "a" "b").1.event.map chunkContent =
      some "Assistant: Hello there" := by
  constructor
  · have h := c5_speaker_strip_only_first_frame jpAssistant 0 sseX 0 "a" "b" evAssistant
      rfl (by decide) (by decide) rfl
    simpa using h
  · have h := c5_speaker_strip_only_first_frame jpAssistant 0 sseX 1 "a" "b" evAssistant
      rfl (by decide) (by decide) rfl
    simpa using h

/-- Claim C7: the transcoder is a total function of the frame; an empty
payload or the "[DONE]" sentinel yields the skip result with nothing logged,
any frame whose payload fails `asCompletion` — invalid JSON or no candidate —
yields the skip result after the invalid-event warning, and every result is
either the skip result or a single chunk with exactly one choice. -/
theorem c7_total_skip_or_single_chunk (jp : String → Option GoogleAIStreamEvent)
    (sse : ServerSentEvent) (index : Nat) (fid fm : String) (now : Int) :
    ((sse.data = "" ∨ sse.data = "[DONE]") →
      googleAIToOpenAI jp now sse index fid fm = (skipResult, TranscoderLog.silent)) ∧
    (sse.data ≠ "" → sse.data ≠ "[DONE]" → asCompletion jp sse = none →
      googleAIToOpenAI jp now sse index fid fm = (skipResult, TranscoderLog.warnInvalid)) ∧
    ((jp sse.data = none ∨ ∃ ev, jp sse.data = some ev ∧ ev.candidates = []) →
      asCompletion jp sse = none) ∧
    (googleAIToOpenAI jp now sse index fid fm).1.position = -1 ∧
    ((googleAIToOpenAI jp now sse index fid fm).1.event = none ∨
      ∃ c, (googleAIToOpenAI jp now sse index fid fm).1.event = some c ∧
        c.choices.length = 1) := by
  refine ⟨?_, ?_, ?_, ?_, ?_⟩
  · intro h
    unfold googleAIToOpenAI
    rw [if_pos h]
  · intro h1 h2 hn
    unfold googleAIToOpenAI
    rw [if_neg (not_or.mpr ⟨h1, h2⟩), hn]
  · intro h
    unfold asCompletion
    rcases h with h | ⟨ev, hev, hnil⟩
    · rw [h]
    · rw [hev]
      simp [hnil]
  · unfold googleAIToOpenAI
    split
    · rfl
    · split
      · rfl
      · rfl
  · unfold googleAIToOpenAI
    split
    · exact Or.inl rfl
    · split
      · exact Or.inl rfl
      · exact Or.inr ⟨_, rfl, rfl⟩

/-- Claim C7 witness: an empty payload skips silently; a payload the parser
rejects skips with the warning. -/
theorem c7_witness :
    googleAIToOpenAI jpNone 0 ⟨none, ""⟩ 0 "a" "b" = (skipResult, TranscoderLog.silent) ∧
    googleAIToOpenAI jpNone 0 ⟨none, "bad"⟩ 0 "a" "b" =
      (skipResult, TranscoderLog.warnInvalid) :=
  ⟨(c7_total_skip_or_single_chunk jpNone ⟨none, ""⟩ 0 "a" "b" 0).1 (Or.inl rfl),
   (c7_total_skip_or_single_chunk jpNone ⟨none, "bad"⟩ 0 "a" "b" 0).2.1
     (by decide) (by decide)
     ((c7_total_skip_or_single_chunk jpNone ⟨none, "bad"⟩ 0 "a" "b" 0).2.2.1 (Or.inl rfl))⟩

/-- Claim C6, counterexample: a candidate with finish reason SAFETY whose
`content` field is absent carries no content parts, yet the override does
not fire (`content?.parts?.length === 0` is `undefined === 0`) and the
emitted delta content is the empty string rather than a synthesized warning
embedding the (non-empty) safety ratings. -/
theorem c6_absent_content_yields_empty_delta :
    (firstCandidate evSafetyNoContent).finishReason = some "SAFETY" ∧
    (firstCandidate evSafetyNoContent).content = none ∧
    extractContent evSafetyNoContent = "" ∧
    (firstCandidate evSafetyNoContent).safetyRatings ≠ [] ∧
    isSafetyStop evSafetyNoContent = false ∧
    (googleAIToOpenAI jpSafetyNoContent 0 sseX 1 "a" "b").1.event.map chunkContent =
      some "" := by
  refine ⟨rfl, rfl, rfl, by decide, rfl, rfl⟩

/-- Claim C6, amended: the override fires exactly when the finish reason is
SAFETY or OTHER and the candidate's `content.parts` is present and an empty
array (absent `content` or `parts` does not trigger it); when it fires the
pre-strip text is the synthesized warning embedding the serialized safety
ratings (emitted verbatim from index 1 on, and never empty), and when it
does not fire the extracted text is not replaced. -/
theorem c6_safety_override_requires_present_empty_parts
    (jp : String → Option GoogleAIStreamEvent) (now : Int) (sse : ServerSentEvent)
    (index : Nat) (fid fm : String) (ev : GoogleAIStreamEvent)
    (hp : jp sse.data = some ev) (h1 : sse.data ≠ "") (h2 : sse.data ≠ "[DONE]")
    (hc : ev.candidates ≠ []) :
    (isSafetyStop ev = true ↔
      ((((firstCandidate ev).finishReason.getD "") = "SAFETY" ∨
        ((firstCandidate ev).finishReason.getD "") = "OTHER") ∧
       ∃ ct, (firstCandidate ev).content = some ct ∧ ct.parts = some [])) ∧
    (isSafetyStop ev = true → 1 ≤ index →
      (googleAIToOpenAI jp now sse index fid fm).1.event.map chunkContent =
        some (safetyOverrideText ev) ∧
      safetyOverrideText ev ≠ "") ∧
    (isSafetyStop ev = false →
      (googleAIToOpenAI jp now sse index fid fm).1.event.map chunkContent =
        some (if index = 0 then jsTrim (stripSpeaker (extractContent ev))
              else extractContent ev)) := by
  refine ⟨?_, ?_, ?_⟩
  · unfold isSafetyStop
    constructor
    · intro h
      rw [Bool.and_eq_true] at h
      obtain ⟨hab, hm⟩ := h
      refine ⟨by simpa using hab, ?_⟩
      cases hct : (firstCandidate ev).content with
      | none => simp [hct] at hm
      | some ct =>
        simp only [hct] at hm
        cases hps : ct.parts with
        | none => simp [hps] at hm
        | some ps =>
          simp only [hps] at hm
          have hlen : ps.length = 0 := by simpa using hm
          rw [List.length_eq_zero.mp hlen] at hps
          exact ⟨ct, rfl, hps⟩
    · rintro ⟨hab, ct, hct, hps⟩
      rw [Bool.and_eq_true]
      refine ⟨by simpa using hab, ?_⟩
      simp [hct, hps]
  · intro hss hidx
    have hni : index ≠ 0 := by omega
    rw [transcoderEmits jp now sse index fid fm ev hp h1 h2 hc]
    refine ⟨?_, safetyOverrideText_ne ev⟩
    simp [chunkContent, hss, hni]
  · intro hss
    rw [transcoderEmits jp now sse index fid fm ev hp h1 h2 hc]
    simp [chunkContent, hss]

/-- Claim C6 witness: a SAFETY candidate with a present empty parts array at
frame index 1 yields the synthesized warning verbatim. -/
theorem c6_witness :
    isSafetyStop evSafetyEmptyParts = true ∧
    (googleAIToOpenAI jpSafetyEmptyParts 0 sseX 1 "a" "b").1.event.map chunkContent =
      some (safetyOverrideText evSafetyEmptyParts) := by
  refine ⟨rfl, ?_⟩
  exact ((c6_safety_override_requires_present_empty_parts jpSafetyEmptyParts 0 sseX 1
    "a" "b" evSafetyEmptyParts rfl (by decide) (by decide) (by decide)).2.1
    rfl (by decide)).1

/-- Claim C10: at frame index 0 the emitted delta content is the
whitespace-trim of the speaker-prefix strip applied to the text after the
safety-block override; in particular, for a safety-triggered index-0 chunk
the strip removes the warning's own "[Proxy Warning] ... triggered: " head
(its only colon-space), leaving exactly the serialized safety ratings. -/
theorem c10_first_frame_strip_after_safety_override
    (jp : String → Option GoogleAIStreamEvent) (now : Int) (sse : ServerSentEvent)
    (fid fm : String) (ev : GoogleAIStreamEvent)
    (hp : jp sse.data = some ev) (h1 : sse.data ≠ "") (h2 : sse.data ≠ "[DONE]")
    (hc : ev.candidates ≠ []) :
    (googleAIToOpenAI jp now sse 0 fid fm).1.event.map chunkContent =
      some (jsTrim (stripSpeaker
        (if isSafetyStop ev then safetyOverrideText ev else extractContent ev))) ∧
    (isSafetyStop ev = true →
      (googleAIToOpenAI jp now sse 0 fid fm).1.event.map chunkContent =
        some (jsonStringifyRatings (firstCandidate ev).safetyRatings)) := by
  constructor
  · rw [transcoderEmits jp now sse 0 fid fm ev hp h1 h2 hc]
    simp [chunkContent]
  · intro hss
    rw [transcoderEmits jp now sse 0 fid fm ev hp h1 h2 hc]
    simp [chunkContent, hss, stripTrim_safety]

/-- Claim C10 witness: an OTHER-stopped empty-parts candidate at index 0
emits exactly its serialized safety ratings. -/
theorem c10_witness :
    (googleAIToOpenAI jpSafetyFirst 0 sseX 0 "a" "b").1.event.map chunkContent =
      some (jsonStringifyRatings (firstCandidate evSafetyFirst).safetyRatings) ∧
    jsonStringifyRatings (firstCandidate evSafetyFirst).safetyRatings =
      "[\x7b\"category\":\"HARM_CATEGORY_SEXUALLY_EXPLICIT\",\"probability\":\"LOW\"\x7d]" := by
  refine ⟨?_, rfl⟩
  exact (c10_first_frame_strip_after_safety_override jpSafetyFirst 0 sseX "a" "b"
    evSafetyFirst rfl (by decide) (by decide) (by decide)).2 rfl
